import Mathlib

/-!
Shallow embedding of the playlib-backend repository (a CRUD backend for a
game catalog over a document store).

Modelling conventions:
* JavaScript/JSON values are modelled by `JVal`.  Numbers are restricted to
  integers (`Int`), which covers every numeric value the embedded code paths
  construct or compare; `jnan` represents the JS `NaN` produced by failed
  numeric coercions, and `jundef` represents `undefined` (the result of
  reading an absent object property).
* JS objects (request bodies, stored documents, update patches) are
  association lists `JObj`; property read is first-binding lookup and an
  absent key reads as `jundef`, matching JS property access.
* `new Date().toISOString()` produces, from a monotone clock, fixed-width
  ISO-8601 strings whose lexicographic order coincides with chronological
  order; the creation timestamp is therefore modelled as an integer clock
  tick `now : Int`, and the descending sort of the store on it is numeric.
* MongoDB `ObjectId`s are modelled as strings; `ObjectId.isValid` accepts
  24-character hex strings and 12-character strings, as the driver does.
-/

/-- JSON/JS runtime values handled by the embedded code. -/
inductive JVal where
  | jnull
  | jundef
  | jbool (b : Bool)
  | jnum (n : Int)
  | jnan
  | jstr (s : String)
  | jarr (l : List JVal)
  | jobj (o : List (String × JVal))

/-- A JS object: an association list of fields. -/
abbrev JObj := List (String × JVal)

open JVal

/-- JS truthiness (`if (v)`): `null`, `undefined`, `false`, `0`, `NaN` and
the empty string are falsy; arrays and objects are always truthy. -/
def truthy : JVal → Bool
  | jnull => false
  | jundef => false
  | jbool b => b
  | jnum n => n != 0
  | jnan => false
  | jstr s => s != ""
  | jarr _ => true
  | jobj _ => true

/-- JS `a || b` applied to a value and a default. -/
def jsOr (v d : JVal) : JVal := if truthy v then v else d

/-- Property read `o.k`: value of the first binding of `k`, or `undefined`. -/
def objGet : JObj → String → JVal
  | [], _ => jundef
  | p :: o, k => if p.1 = k then p.2 else objGet o k

/-- Optional property read, distinguishing an absent key. -/
def objGetOpt : JObj → String → Option JVal
  | [], _ => none
  | p :: o, k => if p.1 = k then some p.2 else objGetOpt o k

/-- JS `delete o.k`: removes every binding of `k`. -/
def objDelete : JObj → String → JObj
  | [], _ => []
  | p :: o, k => if p.1 = k then objDelete o k else p :: objDelete o k

/-- Property write `o.k = v`, observationally: binds `k` to `v`, keeping all
other bindings. -/
def objSet (o : JObj) (k : String) (v : JVal) : JObj :=
  (k, v) :: objDelete o k

/-- Equality of a JS value with a given string (used for `_id` matching and
`$in` membership against a string constant). -/
def isStr (v : JVal) (s : String) : Bool :=
  match v with
  | jstr t => t == s
  | _ => false

/-- Is the value `undefined`? (JS `v !== undefined` tests). -/
def isUndef : JVal → Bool
  | jundef => true
  | _ => false

/-- Is the value an empty array? (`Array.isArray(v) && v.length === 0`). -/
def isEmptyArr : JVal → Bool
  | jarr [] => true
  | _ => false

mutual

/-- JS `String(v)` conversion for the values of this model. -/
def jsToString : JVal → String
  | jnull => "null"
  | jundef => "undefined"
  | jbool b => if b then "true" else "false"
  | jnum n => toString n
  | jnan => "NaN"
  | jstr s => s
  | jarr l => jsJoin l
  | jobj _ => "[object Object]"

/-- `Array.prototype.toString`: comma-join; `null`/`undefined` elements
render as empty strings. -/
def jsJoin : List JVal → String
  | [] => ""
  | x :: xs =>
      let s := match x with
        | jnull => ""
        | jundef => ""
        | _ => jsToString x
      match xs with
      | [] => s
      | _ :: _ => s ++ "," ++ jsJoin xs

end

/-- Numeric value of a list of decimal digits. -/
def digitsVal (cs : List Char) : Nat :=
  cs.foldl (fun a c => a * 10 + (c.toNat - 48)) 0

/-- JS `parseInt(s, 10)` on a string: skip leading whitespace, optional
sign, then the longest prefix of decimal digits; `none` models `NaN`. -/
def jsParseIntStr (s : String) : Option Int :=
  let cs := s.data.dropWhile (fun c => c.isWhitespace)
  match cs with
  | '-' :: r =>
      let ds := r.takeWhile (fun c => c.isDigit)
      if ds.isEmpty then none else some (-(digitsVal ds : Int))
  | '+' :: r =>
      let ds := r.takeWhile (fun c => c.isDigit)
      if ds.isEmpty then none else some (digitsVal ds : Int)
  | r =>
      let ds := r.takeWhile (fun c => c.isDigit)
      if ds.isEmpty then none else some (digitsVal ds : Int)

/-- JS `parseInt(v, 10)` on a value (argument is stringified first). -/
def jsParseInt (v : JVal) : JVal :=
  match jsParseIntStr (jsToString v) with
  | some n => jnum n
  | none => jnan

/-- JS `Number(s)` on a string (integer grammar of this model): the whole
trimmed string must be a signed decimal numeral; the empty string is `0`;
`none` models `NaN`. -/
def jsNumberStr (s : String) : Option Int :=
  let cs := ((s.data.dropWhile (fun c => c.isWhitespace)).reverse.dropWhile
      (fun c => c.isWhitespace)).reverse
  match cs with
  | [] => some 0
  | '-' :: r =>
      if r ≠ [] ∧ r.all (fun c => c.isDigit) then some (-(digitsVal r : Int)) else none
  | '+' :: r =>
      if r ≠ [] ∧ r.all (fun c => c.isDigit) then some (digitsVal r : Int) else none
  | r =>
      if r.all (fun c => c.isDigit) then some (digitsVal r : Int) else none

/-- JS `Number(v)` conversion; `none` models `NaN`. -/
def jsNumber : JVal → Option Int
  | jnull => some 0
  | jundef => none
  | jbool b => some (if b then 1 else 0)
  | jnum n => some n
  | jnan => none
  | jstr s => jsNumberStr s
  | jarr l => jsNumberStr (jsJoin l)
  | jobj _ => none

/-- Hexadecimal character (`[a-fA-F0-9]`). -/
def isHexChar (c : Char) : Bool :=
  c.isDigit || ('a' ≤ c && c ≤ 'f') || ('A' ≤ c && c ≤ 'F')

/-- 24 hexadecimal characters: the controller id-format regex and the
canonical `ObjectId` hex form. -/
def isHex24 (s : String) : Bool :=
  s.length == 24 && s.data.all isHexChar

/-- `ObjectId.isValid` of the MongoDB driver: a 24-character hex string or
any 12-character string. -/
def isValidObjectId (s : String) : Bool :=
  s.length == 12 || isHex24 s

/-- The guard of the `getOne` controller
`!(!id || id.length !== 24 || !/^[a-fA-F0-9]{24}$/.test(id))`. -/
def ctrlIdOk (id : String) : Bool :=
  id != "" && isHex24 id

/-- The games collection: a list of documents in insertion order. -/
abbrev Store := List JObj

/-- `findOne({ _id })`: the first document whose `_id` equals the given id. -/
def findDoc (store : Store) (id : String) : Option JObj :=
  List.find? (fun d => isStr (objGet d "_id") id) store

/-- `Array.isArray(v) ? v : [v || ""]` — the always-array normalization of
`genero`/`plataforma` in `JuegosModelo.create`. -/
def normalizeArr (v : JVal) : JVal :=
  match v with
  | jarr l => jarr l
  | _ => jarr [jsOr v (jstr "")]

/-- `gameData.añoLanzamiento ? parseInt(gameData.añoLanzamiento) : null`. -/
def coerceYear (v : JVal) : JVal :=
  if truthy v then jsParseInt v else jnull

/-- `gameData.horasJugadas ? parseInt(gameData.horasJugadas) : 0`. -/
def coerceHours (v : JVal) : JVal :=
  if truthy v then jsParseInt v else jnum 0

/-- The `newGame` object literal built by `JuegosModelo.create`. -/
def newGameDoc (gameData : JObj) (now : Int) : JObj :=
  [("titulo", jsOr (objGet gameData "titulo") (jstr "")),
   ("genero", normalizeArr (objGet gameData "genero")),
   ("plataforma", normalizeArr (objGet gameData "plataforma")),
   ("añoLanzamiento", coerceYear (objGet gameData "añoLanzamiento")),
   ("desarrollador", jsOr (objGet gameData "desarrollador") (jstr "")),
   ("imagenPortada", jsOr (objGet gameData "imagenPortada") (jstr "")),
   ("descripcion", jsOr (objGet gameData "descripcion") (jstr "")),
   ("completado", jsOr (objGet gameData "completado") (jbool false)),
   ("fechaCreacion", jnum now),
   ("horasJugadas", coerceHours (objGet gameData "horasJugadas")),
   ("reseñas", jsOr (objGet gameData "reseñas") (jarr []))]

/-- A `getAll` filter as built by the controller: optional `$in`-style
constraints on `genero` and `plataforma`. -/
structure MFilter where
  genero : Option String
  plataforma : Option String

/-- Mongo `field: { $in: [v] }` with a string constant `v`: matches when the
field is an array containing `v`, or is itself equal to `v`. -/
def mongoInMatch (field : JVal) (v : String) : Bool :=
  match field with
  | jarr l => l.any (fun x => isStr x v)
  | x => isStr x v

/-- Whether a document matches a `getAll` filter. -/
def matchesFilter (f : MFilter) (d : JObj) : Bool :=
  (match f.genero with
   | some v => mongoInMatch (objGet d "genero") v
   | none => true) &&
  (match f.plataforma with
   | some v => mongoInMatch (objGet d "plataforma") v
   | none => true)

/-- Sort key of `.sort({ fechaCreacion: -1 })` (creation tick). -/
def fcKey (d : JObj) : Int :=
  match objGet d "fechaCreacion" with
  | jnum n => n
  | _ => 0

/-- Descending comparison on `fechaCreacion` used by the sort. -/
def fcDesc (a b : JObj) : Bool :=
  decide (fcKey b ≤ fcKey a)

/-- `$set` application: assign each patch field on the document in order. -/
def applySet (d : JObj) (patch : JObj) : JObj :=
  List.foldl (fun acc kv => objSet acc kv.1 kv.2) d patch

/-- `findOneAndUpdate` with `$set` returning the post-update document: update the
first matching document and return the post-update document. -/
def updateFirst (store : Store) (id : String) (patch : JObj) : Option JObj × Store :=
  match store with
  | [] => (none, [])
  | d :: rest =>
    if isStr (objGet d "_id") id then
      (some (applySet d patch), applySet d patch :: rest)
    else
      let r := updateFirst rest id patch
      (r.1, d :: r.2)

/-- `deleteOne({_id})`: remove the first matching document, if any. -/
def deleteFirst (store : Store) (id : String) : Option Store :=
  match store with
  | [] => none
  | d :: rest =>
    if isStr (objGet d "_id") id then some rest
    else (deleteFirst rest id).map (fun r => d :: r)

/-- Mongo `$push` onto the `reseñas` field: appends to an array field,
creates a one-element array when the field is absent, and fails on a
non-array field. -/
def pushResenas (d : JObj) (rev : JObj) : Option JObj :=
  match objGetOpt d "reseñas" with
  | some (jarr l) => some (objSet d "reseñas" (jarr (l ++ [jobj rev])))
  | none => some (objSet d "reseñas" (jarr [jobj rev]))
  | some _ => none

/-- `findOneAndUpdate({_id}, {$push: {reseñas: rev}})` over the store. -/
def pushFirst (store : Store) (id : String) (rev : JObj) :
    Except String (Option JObj × Store) :=
  match store with
  | [] => .ok (none, [])
  | d :: rest =>
    if isStr (objGet d "_id") id then
      match pushResenas d rev with
      | some d2 => .ok (some d2, d2 :: rest)
      | none => .error "Cannot apply $push to a non-array value"
    else
      match pushFirst rest id rev with
      | .ok r => .ok (r.1, d :: r.2)
      | .error e => .error e

namespace JuegosModelo

/-- `JuegosModelo.create`: builds `newGame`, inserts it (the store assigns
`_id := newId`), and returns `{ ...newGame, _id }` together with the new
store.  The database is assumed initialized (`_col()` does not throw); no
claim exercises the uninitialized path. -/
def create (store : Store) (gameData : JObj) (now : Int) (newId : String) :
    JObj × Store :=
  let g := newGameDoc gameData now
  let stored := g ++ [("_id", jstr newId)]
  (stored, store ++ [stored])

/-- `JuegosModelo.getAll`: `find(filter).sort({ fechaCreacion: -1 })`. -/
def getAll (store : Store) (f : MFilter) : List JObj :=
  List.mergeSort (List.filter (fun d => matchesFilter f d) store) fcDesc

/-- `JuegosModelo.getOne`: `null` for an invalid `ObjectId`, otherwise
`findOne({ _id })`. -/
def getOne (store : Store) (id : String) : Option JObj :=
  if isValidObjectId id then findDoc store id else none

/-- The `$set` payload built by `JuegosModelo.update`:
`delete updateData._id`, spread into `$set`, then
`if (updatePayload.$set.fechaCreacion) delete updatePayload.$set.fechaCreacion`. -/
def stripUpdate (updateData : JObj) : JObj :=
  let ud := objDelete updateData "_id"
  if truthy (objGet ud "fechaCreacion") then objDelete ud "fechaCreacion"
  else ud

/-- `JuegosModelo.update`: `null` for an invalid `ObjectId`; otherwise
builds the `$set` payload with `stripUpdate` and runs `findOneAndUpdate`
returning the post-update document. -/
def update (store : Store) (id : String) (updateData : JObj) :
    Option JObj × Store :=
  if isValidObjectId id then updateFirst store id (stripUpdate updateData)
  else (none, store)

/-- `JuegosModelo.delete`: `false` for an invalid `ObjectId`; otherwise
`deleteOne({_id}).deletedCount === 1`. -/
def delete (store : Store) (id : String) : Bool × Store :=
  if isValidObjectId id then
    match deleteFirst store id with
    | some s => (true, s)
    | none => (false, store)
  else (false, store)

/-- The `newReseña` object literal built by `JuegosModelo.addReseña`. -/
def newResenaDoc (juegoId : String) (rd : JObj) (now : Int) (revId : String) :
    JObj :=
  [("_id", jstr revId),
   ("juegoId", jstr juegoId),
   ("nombreUsuario", jsOr (objGet rd "nombreUsuario") (jstr "Anónimo")),
   ("textoReseña", jsOr (objGet rd "textoReseña") (jstr "")),
   ("calificaciones", jsOr (objGet rd "calificaciones") (jnum 0)),
   ("horasJugadas", jsOr (objGet rd "horasJugadas") (jnum 0)),
   ("dificultad", jsOr (objGet rd "dificultad") (jstr "Normal")),
   ("recomendaria", if isUndef (objGet rd "recomendaria") then jbool true
     else objGet rd "recomendaria"),
   ("fechaCreacion", jnum now)]

/-- `JuegosModelo.addReseña`: throws for an invalid `ObjectId`; otherwise
builds the review, `$push`es it onto the matching game (if any), and
returns the review itself — not the updated game. -/
def addResena (store : Store) (juegoId : String) (rd : JObj) (now : Int)
    (revId : String) : Except String (JObj × Store) :=
  if isValidObjectId juegoId then
    let rev := newResenaDoc juegoId rd now revId
    match pushFirst store juegoId rev with
    | .ok r => .ok (rev, r.2)
    | .error e => .error e
  else .error "ID de juego inválido"

/-- `JuegosModelo.getReseñas`: `[]` for an invalid `ObjectId`, else
`game?.reseñas || []`. -/
def getResenas (store : Store) (juegoId : String) : JVal :=
  if isValidObjectId juegoId then
    match findDoc store juegoId with
    | some g => jsOr (objGet g "reseñas") (jarr [])
    | none => jsOr jundef (jarr [])
  else jarr []

end JuegosModelo

/-- An HTTP response: status code and JSON body. -/
structure HResp where
  status : Nat
  body : JObj

/-- A repository call made by a handler (persistence-layer invocation). -/
inductive RepoOp where
  | createOp (gd : JObj)
  | getAllOp (f : MFilter)
  | getOneOp (id : String)
  | updateOp (id : String) (ud : JObj)
  | deleteOp (id : String)
  | addResenaOp (id : String) (rd : JObj)

/-- Result of running a handler: the response, the store afterwards, and
the repository calls it made. -/
structure HOut where
  resp : HResp
  store : Store
  ops : List RepoOp

namespace juegosController

/-- `juegosController.create` (POST /api/juegos): title/genre/year
validation in order, year normalization, then `JuegosModelo.create`. -/
def create (store : Store) (body? : Option JObj) (now : Int) (newId : String) :
    HOut :=
  let body := match body? with
    | some b => b
    | none => []
  if !truthy (objGet body "titulo") then
    ⟨⟨400, [("success", JVal.jbool false),
            ("message", JVal.jstr "El campo \"título\" es obligatorio"),
            ("field", JVal.jstr "titulo"),
            ("receivedData", JVal.jobj body)]⟩, store, []⟩
  else if !truthy (objGet body "genero") || isEmptyArr (objGet body "genero") then
    ⟨⟨400, [("success", JVal.jbool false),
            ("message", JVal.jstr "El campo \"género\" es obligatorio"),
            ("field", JVal.jstr "genero"),
            ("receivedData", JVal.jobj body)]⟩, store, []⟩
  else if truthy (objGet body "añoLanzamiento")
      && (jsNumber (objGet body "añoLanzamiento")).isNone then
    ⟨⟨400, [("success", JVal.jbool false),
            ("message", JVal.jstr "El año de lanzamiento debe ser un número válido"),
            ("field", JVal.jstr "añoLanzamiento")]⟩, store, []⟩
  else
    let body2 := if truthy (objGet body "añoLanzamiento") then
        objSet body "añoLanzamiento" (jsParseInt (objGet body "añoLanzamiento"))
      else body
    let r := JuegosModelo.create store body2 now newId
    ⟨⟨201, [("success", JVal.jbool true),
            ("data", JVal.jobj r.1),
            ("message", JVal.jstr "Juego creado exitosamente")]⟩,
     r.2, [RepoOp.createOp body2]⟩

/-- `juegosController.getAll` (GET /api/juegos): builds the `$in` filter
from truthy query parameters and lists games. -/
def getAll (store : Store) (qGenero qPlataforma : Option String) : HOut :=
  let g := match qGenero with
    | some s => if s != "" then some s else none
    | none => none
  let p := match qPlataforma with
    | some s => if s != "" then some s else none
    | none => none
  let f : MFilter := ⟨g, p⟩
  let l := JuegosModelo.getAll store f
  ⟨⟨200, [("success", JVal.jbool true),
          ("data", JVal.jarr (l.map JVal.jobj))]⟩, store, [RepoOp.getAllOp f]⟩

/-- `juegosController.getOne` (GET /api/juegos/:id): 400 on malformed id
before any repository call; else 404/200 from the repository result. -/
def getOne (store : Store) (id : String) : HOut :=
  if !(ctrlIdOk id) then
    ⟨⟨400, [("success", JVal.jbool false),
            ("message", JVal.jstr "ID de juego inválido. Debe ser un ObjectId de MongoDB válido (24 caracteres hexadecimales)"),
            ("receivedId", JVal.jstr id)]⟩, store, []⟩
  else
    match JuegosModelo.getOne store id with
    | none =>
      ⟨⟨404, [("success", JVal.jbool false),
              ("message", JVal.jstr "Juego no encontrado")]⟩, store,
       [RepoOp.getOneOp id]⟩
    | some g =>
      ⟨⟨200, [("success", JVal.jbool true), ("data", JVal.jobj g)]⟩, store,
       [RepoOp.getOneOp id]⟩

/-- `juegosController.update` (PUT /api/juegos/:id): no id-format check of
its own — forwards straight to `JuegosModelo.update`. -/
def update (store : Store) (id : String) (body? : Option JObj) : HOut :=
  let body := match body? with
    | some b => b
    | none => []
  let r := JuegosModelo.update store id body
  match r.1 with
  | none =>
    ⟨⟨404, [("success", JVal.jbool false),
            ("message", JVal.jstr "Juego no encontrado para actualizar")]⟩,
     r.2, [RepoOp.updateOp id body]⟩
  | some d =>
    ⟨⟨200, [("success", JVal.jbool true), ("data", JVal.jobj d),
            ("message", JVal.jstr "Juego actualizado")]⟩,
     r.2, [RepoOp.updateOp id body]⟩

/-- `juegosController.delete` (DELETE /api/juegos/:id): no id-format check
of its own — forwards straight to `JuegosModelo.delete`. -/
def delete (store : Store) (id : String) : HOut :=
  let r := JuegosModelo.delete store id
  if r.1 then
    ⟨⟨200, [("success", JVal.jbool true),
            ("message", JVal.jstr "Juego eliminado")]⟩, r.2,
     [RepoOp.deleteOp id]⟩
  else
    ⟨⟨404, [("success", JVal.jbool false),
            ("message", JVal.jstr "Juego no encontrado para eliminar")]⟩, r.2,
     [RepoOp.deleteOp id]⟩

/-- `Number(calificaciones)` out-of-range or `NaN` test of the review
handler. -/
def badRating (v : JVal) : Bool :=
  match jsNumber v with
  | none => true
  | some n => decide (n < 0) || decide (n > 5)

/-- `juegosController.addReseña` (POST /api/juegos/:id/reviews):
userName/reviewText/rating validation, then `JuegosModelo.addReseña`;
a repository throw is caught and mapped to 500. -/
def addResena (store : Store) (id : String) (body? : Option JObj) (now : Int)
    (revId : String) : HOut :=
  let body := match body? with
    | some b => b
    | none => []
  if !truthy (objGet body "nombreUsuario") then
    ⟨⟨400, [("success", JVal.jbool false),
            ("message", JVal.jstr "El campo \"nombreUsuario\" es obligatorio")]⟩,
     store, []⟩
  else if !truthy (objGet body "textoReseña") then
    ⟨⟨400, [("success", JVal.jbool false),
            ("message", JVal.jstr "El campo \"textoReseña\" es obligatorio")]⟩,
     store, []⟩
  else if !(isUndef (objGet body "calificaciones"))
      && badRating (objGet body "calificaciones") then
    ⟨⟨400, [("success", JVal.jbool false),
            ("message", JVal.jstr "La calificación debe ser un número entre 0 y 5")]⟩,
     store, []⟩
  else
    match JuegosModelo.addResena store id body now revId with
    | .ok r =>
      ⟨⟨201, [("success", JVal.jbool true), ("data", JVal.jobj r.1),
              ("message", JVal.jstr "Reseña agregada exitosamente")]⟩,
       r.2, [RepoOp.addResenaOp id body]⟩
    | .error e =>
      ⟨⟨500, [("success", JVal.jbool false),
              ("message", JVal.jstr "Error al agregar la reseña"),
              ("error", JVal.jstr e)]⟩,
       store, [RepoOp.addResenaOp id body]⟩

end juegosController

/-- `this.maxReconnectAttempts` of `DBClient`. -/
def maxReconnectAttempts : Nat := 5

/-- `this.reconnectDelay` of `DBClient` (milliseconds). -/
def reconnectDelay : Nat := 5000

/-- The terminal error message thrown when the retry bound is exhausted. -/
def connErrMsg (lastMsg : String) : String :=
  "Falló la conexión a MongoDB después de " ++ toString maxReconnectAttempts
    ++ " intentos: " ++ lastMsg

/-- Observable outcome of one `connectWithRetry()` call chain:
`result` is the resolved value or the thrown error message, `attempts` the
final `connectionAttempts` counter, `calls` the number of `client.connect()`
invocations, `waits` the delays awaited between attempts, and `dbSet`
whether `this.db` was assigned. -/
structure RetryResult where
  result : Except String Unit
  attempts : Nat
  calls : Nat
  waits : List Nat
  dbSet : Bool

/-- `DBClient.connectWithRetry`: the environment `outcomes k` gives the
result of the `k`-th `client.connect()` call overall; `attempts` is the
current `connectionAttempts` counter. -/
def connectWithRetry (outcomes : Nat → Except String Unit) (idx : Nat)
    (attempts : Nat) : RetryResult :=
  match outcomes idx with
  | .ok _ => ⟨.ok (), 0, 1, [], true⟩
  | .error msg =>
    let a := attempts + 1
    if h : a < maxReconnectAttempts then
      let r := connectWithRetry outcomes (idx + 1) a
      ⟨r.result, r.attempts, r.calls + 1, reconnectDelay :: r.waits, r.dbSet⟩
    else
      ⟨.error (connErrMsg msg), a, 1, [], false⟩
termination_by maxReconnectAttempts - attempts
decreasing_by omega

/-- What `DBClient.handleConnectionError` does with the counter at hand:
below the bound it schedules an asynchronous reconnect; at or above it, it
only logs.  It never rethrows and never exits the process. -/
structure ErrHandled where
  scheduledReconnect : Bool
  loggedMaxReached : Bool

/-- `DBClient.handleConnectionError` (given the current counter). -/
def handleConnectionError (attempts : Nat) : ErrHandled :=
  if attempts < maxReconnectAttempts then ⟨true, false⟩ else ⟨false, true⟩

/-- Observable outcome of `DBClient.initialize` at first boot. -/
structure InitOutcome where
  db : Option Unit
  attempts : Nat
  handled : Option ErrHandled

/-- `DBClient.initialize` at first boot with the environment variables
present: runs `connectWithRetry` inside `try`; any thrown error is caught
and passed to `handleConnectionError`, after which `initialize` resolves
normally — the `Except.error` result is never produced. -/
def dbInit (outcomes : Nat → Except String Unit) : Except String InitOutcome :=
  let r := connectWithRetry outcomes 0 0
  match r.result with
  | .ok _ => .ok ⟨some (), r.attempts, none⟩
  | .error _ => .ok ⟨none, r.attempts, some (handleConnectionError r.attempts)⟩

/-- Observable outcome of `startServer` in `app.js`. -/
structure StartOutcome where
  serverStarted : Bool
  exitedWithFailure : Bool
  db : Option Unit

/-- `startServer` (app.js): `await dbClient.conectarDB()` — at first boot
there is no client, so this is `initialize()` — then `app.listen(PORT)`;
the `catch` block calls `process.exit(1)`. -/
def startServer (outcomes : Nat → Except String Unit) : StartOutcome :=
  match dbInit outcomes with
  | .ok st => ⟨true, false, st.db⟩
  | .error _ => ⟨false, true, none⟩

/-- Composition of one failed attempt with the rest of the retry chain
(the observable bookkeeping of the recursive case of `connectWithRetry`). -/
def stepFail (r : RetryResult) : RetryResult :=
  ⟨r.result, r.attempts, r.calls + 1, reconnectDelay :: r.waits, r.dbSet⟩

/-- An environment in which every `client.connect()` call fails. -/
def failStream : Nat → Except String Unit :=
  fun _ => .error "connect ECONNREFUSED"

/-- Does the value contain the string `v` as an element of a sequence?
(The spec reading: the genre sequence of the game contains the value.) -/
def seqContains (f : JVal) (v : String) : Bool :=
  match f with
  | jarr l => l.any (fun x => isStr x v)
  | _ => false

/-- A syntactically valid 24-hex-character game id. -/
def gid24 : String := "aaaaaaaaaaaaaaaaaaaaaaaa"

/-- A well-formed create request body. -/
def sampleCreateInput : JObj :=
  [("titulo", jstr "Chrono Trigger"), ("genero", jstr "RPG")]

/-- The game document stored by creating `sampleCreateInput` at tick 100. -/
def sampleGame : JObj := (JuegosModelo.create [] sampleCreateInput 100 gid24).1

/-- The store holding exactly `sampleGame`. -/
def sampleStore : Store := (JuegosModelo.create [] sampleCreateInput 100 gid24).2

/-- A create body whose `añoLanzamiento` is present with the value 0. -/
def c6Input : JObj :=
  [("titulo", jstr "T"), ("genero", jstr "RPG"), ("añoLanzamiento", jnum 0)]

/-- A create body with a truthy numeric-string release year and truthy
hours played. -/
def c6wInput : JObj :=
  [("titulo", jstr "T"), ("genero", jstr "RPG"),
   ("añoLanzamiento", jstr "1995"), ("horasJugadas", jnum 10)]

/-- A second syntactically valid 24-hex-character game id. -/
def gidB : String := "bbbbbbbbbbbbbbbbbbbbbbbb"

/-- A store with two RPG games created at ticks 1 and 2. -/
def c7Store : Store :=
  (JuegosModelo.create (JuegosModelo.create [] sampleCreateInput 1 gid24).2
    sampleCreateInput 2 gidB).2

/-- A review body with an out-of-range rating. -/
def c8Body : JObj :=
  [("nombreUsuario", jstr "Ana"), ("textoReseña", jstr "Great"),
   ("calificaciones", jnum 7)]

/-- A valid review body without a rating. -/
def c10Body : JObj :=
  [("nombreUsuario", jstr "Ana"), ("textoReseña", jstr "Great")]

/-- A create body whose release year is a non-numeric string. -/
def c9Body : JObj :=
  [("titulo", jstr "T"), ("genero", jstr "RPG"),
   ("añoLanzamiento", jstr "abc")]

/-- A third syntactically valid 24-hex-character id (for a review). -/
def gidC : String := "cccccccccccccccccccccccc"

/-- A non-empty sequence of strings (the invariant claimed for the stored
`genero`/`plataforma` fields). -/
def isNonemptyStrSeq (v : JVal) : Bool :=
  match v with
  | jarr (x :: xs) =>
      (x :: xs).all (fun e => match e with
        | jstr _ => true
        | _ => false)
  | _ => false

/-- A create body whose `plataforma` is an empty array (the controller does
not validate `plataforma` at all). -/
def c4Input : JObj :=
  [("titulo", jstr "T"), ("genero", jstr "RPG"), ("plataforma", jarr [])]

example : objGet [("a", jnum 1), ("b", jstr "x")] "b" = jstr "x" := rfl
example : objGet [("a", jnum 1)] "z" = jundef := rfl
example : objGet (objSet [("a", jnum 1)] "a" (jnum 2)) "a" = jnum 2 := rfl
example : jsParseInt (jstr "2024abc") = jnum 2024 := rfl
example : jsParseInt (jstr "abc") = jnan := rfl
example : jsNumber (jstr "2024") = some 2024 := rfl
example : jsNumber (jstr "20x") = none := rfl
example : jsNumber jnull = some 0 := rfl
example : isHex24 "507f1f77bcf86cd799439011" = true := rfl
example : isValidObjectId "xyz" = false := rfl
example : isValidObjectId "abcdefabcdef" = true := rfl

theorem objGet_objDelete_self (o : JObj) (k : String) :
    objGet (objDelete o k) k = jundef := by
  induction o with
  | nil => rfl
  | cons p o ih =>
    by_cases h : p.1 = k
    · simpa [objDelete, h] using ih
    · simpa [objDelete, objGet, h] using ih

theorem objGetOpt_objDelete_self (o : JObj) (k : String) :
    objGetOpt (objDelete o k) k = none := by
  induction o with
  | nil => rfl
  | cons p o ih =>
    by_cases h : p.1 = k
    · simpa [objDelete, h] using ih
    · simpa [objDelete, objGetOpt, h] using ih

theorem objGet_objDelete_ne (o : JObj) (k k' : String) (h : k' ≠ k) :
    objGet (objDelete o k) k' = objGet o k' := by
  induction o with
  | nil => rfl
  | cons p o ih =>
    by_cases hp : p.1 = k
    · have h1 : ¬ p.1 = k' := by rw [hp]; exact Ne.symm h
      simp only [objDelete, objGet, if_pos hp, if_neg h1]
      exact ih
    · by_cases hp' : p.1 = k'
      · simp only [objDelete, objGet, if_neg hp, if_pos hp']
      · simp only [objDelete, objGet, if_neg hp, if_neg hp']
        exact ih

theorem objGetOpt_objDelete_ne (o : JObj) (k k' : String) (h : k' ≠ k) :
    objGetOpt (objDelete o k) k' = objGetOpt o k' := by
  induction o with
  | nil => rfl
  | cons p o ih =>
    by_cases hp : p.1 = k
    · have h1 : ¬ p.1 = k' := by rw [hp]; exact Ne.symm h
      simp only [objDelete, objGetOpt, if_pos hp, if_neg h1]
      exact ih
    · by_cases hp' : p.1 = k'
      · simp only [objDelete, objGetOpt, if_neg hp, if_pos hp']
      · simp only [objDelete, objGetOpt, if_neg hp, if_neg hp']
        exact ih

theorem objGet_objSet (o : JObj) (k k' : String) (v : JVal) :
    objGet (objSet o k v) k' = if k' = k then v else objGet o k' := by
  by_cases h : k' = k
  · simp [objSet, objGet, h]
  · have : ¬ k = k' := fun e => h e.symm
    simp [objSet, objGet, this, h, objGet_objDelete_ne o k k' h]

theorem objGetOpt_eq_none_of_not_mem (o : JObj) (k : String)
    (h : k ∉ o.map Prod.fst) : objGetOpt o k = none := by
  induction o with
  | nil => rfl
  | cons p o ih =>
    simp only [List.map_cons, List.mem_cons] at h
    push_neg at h
    have : ¬ p.1 = k := fun e => h.1 e.symm
    simp [objGetOpt, this, ih h.2]

theorem objGet_eq_objGetOpt (o : JObj) (k : String) :
    objGet o k = (objGetOpt o k).getD jundef := by
  induction o with
  | nil => rfl
  | cons p o ih =>
    by_cases h : p.1 = k
    · simp [objGet, objGetOpt, h]
    · simp [objGet, objGetOpt, h, ih]

theorem objDelete_sublist (o : JObj) (k : String) :
    List.Sublist (objDelete o k) o := by
  induction o with
  | nil => simp [objDelete]
  | cons p o ih =>
    by_cases h : p.1 = k
    · simp only [objDelete, if_pos h]
      exact ih.cons _
    · simp only [objDelete, if_neg h]
      exact ih.cons₂ _

theorem nodup_keys_objDelete (o : JObj) (k : String)
    (h : (o.map Prod.fst).Nodup) : ((objDelete o k).map Prod.fst).Nodup :=
  h.sublist ((objDelete_sublist o k).map Prod.fst)

theorem objGet_applySet (d : JObj) (patch : JObj) (k : String)
    (h : (patch.map Prod.fst).Nodup) :
    objGet (applySet d patch) k =
      match objGetOpt patch k with
      | some v => v
      | none => objGet d k := by
  induction patch generalizing d with
  | nil => rfl
  | cons p ps ih =>
    obtain ⟨k0, v0⟩ := p
    simp only [List.map_cons, List.nodup_cons] at h
    have step : applySet d ((k0, v0) :: ps) = applySet (objSet d k0 v0) ps := rfl
    rw [step, ih _ h.2]
    by_cases hk : k0 = k
    · subst hk
      have hnone : objGetOpt ps k0 = none :=
        objGetOpt_eq_none_of_not_mem _ _ h.1
      simp [objGetOpt, hnone, objGet_objSet]
    · have hne : ¬ k = k0 := fun e => hk e.symm
      simp only [objGetOpt, if_neg hk]
      cases hv : objGetOpt ps k with
      | some v => simp [hv]
      | none => simp [hv, objGet_objSet, hne]

theorem findDoc_nomatch (store : Store) (id : String)
    (h : ∀ d ∈ store, isStr (objGet d "_id") id = false) :
    findDoc store id = none := by
  induction store with
  | nil => rfl
  | cons d rest ih =>
    have hd := h d (by simp)
    simp only [findDoc, List.find?] at *
    rw [hd]
    exact ih (fun x hx => h x (by simp [hx]))

theorem findDoc_found (pre post : Store) (d : JObj) (id : String)
    (hpre : ∀ e ∈ pre, isStr (objGet e "_id") id = false)
    (hd : isStr (objGet d "_id") id = true) :
    findDoc (pre ++ d :: post) id = some d := by
  induction pre with
  | nil => simp only [List.nil_append, findDoc, List.find?, hd]
  | cons e pre ih =>
    have he := hpre e (by simp)
    simp only [List.cons_append, findDoc, List.find?, he]
    exact ih (fun x hx => hpre x (by simp [hx]))

theorem updateFirst_nomatch (store : Store) (id : String) (patch : JObj)
    (h : ∀ d ∈ store, isStr (objGet d "_id") id = false) :
    updateFirst store id patch = (none, store) := by
  induction store with
  | nil => rfl
  | cons d rest ih =>
    have hd := h d (by simp)
    simp [updateFirst, hd, ih (fun x hx => h x (by simp [hx]))]

theorem updateFirst_found (pre post : Store) (d : JObj) (patch : JObj)
    (id : String)
    (hpre : ∀ e ∈ pre, isStr (objGet e "_id") id = false)
    (hd : isStr (objGet d "_id") id = true) :
    updateFirst (pre ++ d :: post) id patch =
      (some (applySet d patch), pre ++ applySet d patch :: post) := by
  induction pre with
  | nil => simp [updateFirst, hd]
  | cons e pre ih =>
    have he := hpre e (by simp)
    simp [updateFirst, he, ih (fun x hx => hpre x (by simp [hx]))]

theorem deleteFirst_nomatch (store : Store) (id : String)
    (h : ∀ d ∈ store, isStr (objGet d "_id") id = false) :
    deleteFirst store id = none := by
  induction store with
  | nil => rfl
  | cons d rest ih =>
    have hd := h d (by simp)
    simp [deleteFirst, hd, ih (fun x hx => h x (by simp [hx]))]

theorem pushFirst_nomatch (store : Store) (id : String) (rev : JObj)
    (h : ∀ d ∈ store, isStr (objGet d "_id") id = false) :
    pushFirst store id rev = .ok (none, store) := by
  induction store with
  | nil => rfl
  | cons d rest ih =>
    have hd := h d (by simp)
    simp [pushFirst, hd, ih (fun x hx => h x (by simp [hx]))]

theorem connectWithRetry_ok (outcomes : Nat → Except String Unit)
    (idx attempts : Nat) (ho : outcomes idx = .ok ()) :
    connectWithRetry outcomes idx attempts = ⟨.ok (), 0, 1, [], true⟩ := by
  rw [connectWithRetry]
  rw [ho]

theorem connectWithRetry_fail_retry (outcomes : Nat → Except String Unit)
    (idx attempts : Nat) (msg : String) (ho : outcomes idx = .error msg)
    (h : attempts + 1 < maxReconnectAttempts) :
    connectWithRetry outcomes idx attempts =
      stepFail (connectWithRetry outcomes (idx + 1) (attempts + 1)) := by
  rw [connectWithRetry]
  rw [ho]
  simp only [dif_pos h]
  rfl

theorem connectWithRetry_fail_last (outcomes : Nat → Except String Unit)
    (idx attempts : Nat) (msg : String) (ho : outcomes idx = .error msg)
    (h : ¬ (attempts + 1 < maxReconnectAttempts)) :
    connectWithRetry outcomes idx attempts =
      ⟨.error (connErrMsg msg), attempts + 1, 1, [], false⟩ := by
  rw [connectWithRetry]
  rw [ho]
  simp only [dif_neg h]

theorem connectWithRetry_failStream :
    connectWithRetry failStream 0 0 =
      ⟨.error (connErrMsg "connect ECONNREFUSED"), 5, 5,
       [reconnectDelay, reconnectDelay, reconnectDelay, reconnectDelay],
       false⟩ := by
  rw [connectWithRetry_fail_retry failStream 0 0 _ rfl (by decide)]
  rw [connectWithRetry_fail_retry failStream (0 + 1) (0 + 1) _ rfl (by decide)]
  rw [connectWithRetry_fail_retry failStream (0 + 1 + 1) (0 + 1 + 1) _ rfl
    (by decide)]
  rw [connectWithRetry_fail_retry failStream (0 + 1 + 1 + 1) (0 + 1 + 1 + 1) _
    rfl (by decide)]
  rw [connectWithRetry_fail_last failStream (0 + 1 + 1 + 1 + 1)
    (0 + 1 + 1 + 1 + 1) _ rfl (by decide)]
  rfl

/-- C5: `connectWithRetry` makes at most the fixed maximum number of
connection attempts (5), waiting the fixed delay (5000 ms) between
attempts; on a successful attempt it resets the counter to zero, and on
exhausting the bound it raises an error naming the attempt bound and the
last underlying failure (the counter having been incremented to the bound,
one increment per failure). -/
theorem c5_connectWithRetry_bounded (outcomes : Nat → Except String Unit)
    (idx : Nat) :
    maxReconnectAttempts = 5 ∧ reconnectDelay = 5000 ∧
    (connectWithRetry outcomes idx 0).calls ≤ maxReconnectAttempts ∧
    (connectWithRetry outcomes idx 0).waits =
      List.replicate ((connectWithRetry outcomes idx 0).calls - 1)
        reconnectDelay ∧
    ((connectWithRetry outcomes idx 0).result = .ok () →
      (connectWithRetry outcomes idx 0).attempts = 0) ∧
    (∀ m, (connectWithRetry outcomes idx 0).result = .error m →
      (connectWithRetry outcomes idx 0).attempts = maxReconnectAttempts ∧
      (connectWithRetry outcomes idx 0).calls = maxReconnectAttempts ∧
      ∃ s, outcomes (idx + 4) = .error s ∧ m = connErrMsg s) := by
  refine ⟨rfl, rfl, ?_⟩
  rcases h0 : outcomes idx with m0 | u
  case ok =>
    cases u
    rw [connectWithRetry_ok _ _ _ h0]
    exact ⟨by decide, rfl, fun _ => rfl, fun m hm => by simp at hm⟩
  rw [connectWithRetry_fail_retry _ _ _ _ h0 (by decide)]
  simp only [stepFail]
  rcases h1 : outcomes (idx + 1) with m1 | u
  case ok =>
    cases u
    rw [connectWithRetry_ok _ _ _ h1]
    exact ⟨by decide, by decide, fun _ => rfl, fun m hm => by simp at hm⟩
  rw [connectWithRetry_fail_retry _ _ _ _ h1 (by decide)]
  simp only [stepFail]
  rcases h2 : outcomes (idx + 1 + 1) with m2 | u
  case ok =>
    cases u
    rw [connectWithRetry_ok _ _ _ h2]
    exact ⟨by decide, by decide, fun _ => rfl, fun m hm => by simp at hm⟩
  rw [connectWithRetry_fail_retry _ _ _ _ h2 (by decide)]
  simp only [stepFail]
  rcases h3 : outcomes (idx + 1 + 1 + 1) with m3 | u
  case ok =>
    cases u
    rw [connectWithRetry_ok _ _ _ h3]
    exact ⟨by decide, by decide, fun _ => rfl, fun m hm => by simp at hm⟩
  rw [connectWithRetry_fail_retry _ _ _ _ h3 (by decide)]
  simp only [stepFail]
  rcases h4 : outcomes (idx + 1 + 1 + 1 + 1) with m4 | u
  case ok =>
    cases u
    rw [connectWithRetry_ok _ _ _ h4]
    exact ⟨by decide, by decide, fun _ => rfl, fun m hm => by simp at hm⟩
  rw [connectWithRetry_fail_last _ _ _ _ h4 (by decide)]
  refine ⟨by simp [maxReconnectAttempts], by simp [List.replicate],
    fun hk => by simp at hk, fun m hm => ?_⟩
  have hm' : connErrMsg m4 = m := by simpa using hm
  exact ⟨by simp [maxReconnectAttempts], by simp [maxReconnectAttempts],
    m4, rfl, hm'.symm⟩

theorem c5_witness :
    (connectWithRetry failStream 0 0).calls ≤ maxReconnectAttempts ∧
    (connectWithRetry failStream 0 0).attempts = maxReconnectAttempts := by
  have H := c5_connectWithRetry_bounded failStream 0
  refine ⟨H.2.2.1, ?_⟩
  have hr : (connectWithRetry failStream 0 0).result
      = .error (connErrMsg "connect ECONNREFUSED") := by
    rw [connectWithRetry_failStream]
  exact (H.2.2.2.2.2 _ hr).1

/-- C3: the claim says exhausting the connection-retry bound at first boot
must be fatal to startup.  In the code it is not: `initialize` catches the
terminal error from `connectWithRetry` and `handleConnectionError` merely
logs once the bound is reached, so `conectarDB` resolves normally and
`startServer` proceeds to `app.listen` with no database handle.  This
theorem evaluates the embedded startup at an environment where every
connection attempt fails: the retry chain ends in the terminal error, yet
the server starts (`serverStarted = true`) without a connection
(`db = none`), and the `process.exit(1)` path is not taken. -/
theorem c3_startup_proceeds_after_retry_exhaustion :
    (connectWithRetry failStream 0 0).result
      = .error (connErrMsg "connect ECONNREFUSED") ∧
    dbInit failStream =
      .ok ⟨none, maxReconnectAttempts, some ⟨false, true⟩⟩ ∧
    startServer failStream = ⟨true, false, none⟩ := by
  refine ⟨?_, ?_, ?_⟩
  · rw [connectWithRetry_failStream]
  · unfold dbInit
    rw [connectWithRetry_failStream]
    simp [handleConnectionError, maxReconnectAttempts]
  · unfold startServer dbInit
    rw [connectWithRetry_failStream]

theorem stripUpdate_id_none (ud : JObj) :
    objGetOpt (JuegosModelo.stripUpdate ud) "_id" = none := by
  unfold JuegosModelo.stripUpdate
  by_cases hf : truthy (objGet (objDelete ud "_id") "fechaCreacion")
  · rw [if_pos hf, objGetOpt_objDelete_ne _ _ _ (by decide)]
    exact objGetOpt_objDelete_self ud "_id"
  · rw [if_neg hf]
    exact objGetOpt_objDelete_self ud "_id"

theorem stripUpdate_other (ud : JObj) (k : String) (hk1 : k ≠ "_id")
    (hk2 : k ≠ "fechaCreacion") :
    objGetOpt (JuegosModelo.stripUpdate ud) k = objGetOpt ud k := by
  unfold JuegosModelo.stripUpdate
  by_cases hf : truthy (objGet (objDelete ud "_id") "fechaCreacion")
  · rw [if_pos hf, objGetOpt_objDelete_ne _ _ _ hk2,
      objGetOpt_objDelete_ne _ _ _ hk1]
  · rw [if_neg hf, objGetOpt_objDelete_ne _ _ _ hk1]

theorem stripUpdate_fecha_truthy (ud : JObj)
    (h : truthy (objGet ud "fechaCreacion") = true) :
    objGetOpt (JuegosModelo.stripUpdate ud) "fechaCreacion" = none := by
  unfold JuegosModelo.stripUpdate
  have he : truthy (objGet (objDelete ud "_id") "fechaCreacion") = true := by
    rw [objGet_objDelete_ne ud "_id" "fechaCreacion" (by decide)]
    exact h
  rw [if_pos he]
  exact objGetOpt_objDelete_self _ "fechaCreacion"

theorem stripUpdate_fecha_absent (ud : JObj)
    (h : objGetOpt ud "fechaCreacion" = none) :
    objGetOpt (JuegosModelo.stripUpdate ud) "fechaCreacion" = none := by
  unfold JuegosModelo.stripUpdate
  have he : objGetOpt (objDelete ud "_id") "fechaCreacion"
      = objGetOpt ud "fechaCreacion" :=
    objGetOpt_objDelete_ne ud "_id" "fechaCreacion" (by decide)
  by_cases hf : truthy (objGet (objDelete ud "_id") "fechaCreacion")
  · rw [if_pos hf]
    exact objGetOpt_objDelete_self _ "fechaCreacion"
  · rw [if_neg hf, he, h]

theorem stripUpdate_nodup (ud : JObj) (h : (ud.map Prod.fst).Nodup) :
    ((JuegosModelo.stripUpdate ud).map Prod.fst).Nodup := by
  unfold JuegosModelo.stripUpdate
  by_cases hf : truthy (objGet (objDelete ud "_id") "fechaCreacion")
  · rw [if_pos hf]
    exact nodup_keys_objDelete _ _ (nodup_keys_objDelete _ _ h)
  · rw [if_neg hf]
    exact nodup_keys_objDelete _ _ h

/-- C1 (amended): for an existing game, `update` strips the caller-supplied `_id`
unconditionally and strips `fechaCreacion` whenever the supplied value is
truthy (or the field is absent); the remaining fields are applied as a
partial merge and the post-update document is returned (absence when no
document matched).  The phrase "any forged createdAt value" of the original claim is
amended to "any truthy forged createdAt value": a falsy value such as the
empty string survives into the `$set` payload (see the counterexample). -/
theorem c1_update_strips_id_and_truthy_createdAt
    (pre post : Store) (d : JObj) (id : String) (ud : JObj)
    (hpre : ∀ e ∈ pre, isStr (objGet e "_id") id = false)
    (hd : isStr (objGet d "_id") id = true)
    (hvalid : isValidObjectId id = true)
    (hnodup : (ud.map Prod.fst).Nodup) :
    ∃ d', (JuegosModelo.update (pre ++ d :: post) id ud).1 = some d' ∧
      (JuegosModelo.update (pre ++ d :: post) id ud).2
        = pre ++ d' :: post ∧
      objGet d' "_id" = objGet d "_id" ∧
      (truthy (objGet ud "fechaCreacion") = true →
        objGet d' "fechaCreacion" = objGet d "fechaCreacion") ∧
      (objGetOpt ud "fechaCreacion" = none →
        objGet d' "fechaCreacion" = objGet d "fechaCreacion") ∧
      (∀ k v, k ≠ "_id" → k ≠ "fechaCreacion" → objGetOpt ud k = some v →
        objGet d' k = v) ∧
      (∀ k, objGetOpt ud k = none → objGet d' k = objGet d k) := by
  have hs2 := stripUpdate_nodup ud hnodup
  have hrun : JuegosModelo.update (pre ++ d :: post) id ud =
      (some (applySet d (JuegosModelo.stripUpdate ud)),
       pre ++ applySet d (JuegosModelo.stripUpdate ud) :: post) := by
    unfold JuegosModelo.update
    rw [hvalid]
    simp only [if_true]
    exact updateFirst_found pre post d _ id hpre hd
  refine ⟨applySet d (JuegosModelo.stripUpdate ud), by rw [hrun],
    by rw [hrun], ?_, ?_, ?_, ?_, ?_⟩
  · rw [objGet_applySet _ _ _ hs2, stripUpdate_id_none ud]
  · intro ht
    rw [objGet_applySet _ _ _ hs2, stripUpdate_fecha_truthy ud ht]
  · intro ha
    rw [objGet_applySet _ _ _ hs2, stripUpdate_fecha_absent ud ha]
  · intro k v hk1 hk2 hv
    rw [objGet_applySet _ _ _ hs2, stripUpdate_other ud k hk1 hk2, hv]
  · intro k hk
    by_cases hk1 : k = "_id"
    · subst hk1
      rw [objGet_applySet _ _ _ hs2, stripUpdate_id_none ud]
    · by_cases hk2 : k = "fechaCreacion"
      · subst hk2
        rw [objGet_applySet _ _ _ hs2, stripUpdate_fecha_absent ud hk]
      · rw [objGet_applySet _ _ _ hs2, stripUpdate_other ud k hk1 hk2, hk]

/-- C1 (counterexample): the claim says the update operation strips every caller-supplied `createdAt` (`fechaCreacion`) value.  The guard
`if (updatePayload.$set.fechaCreacion) delete ...` only fires on truthy
values, so updating the sample game with the forged falsy value
`fechaCreacion: ""` overwrites the stored creation timestamp: the fetched `fechaCreacion` of the document is `""`, not the pre-update value `100`. -/
theorem c1_counterexample :
    objGet sampleGame "fechaCreacion" = jnum 100 ∧
    (match (JuegosModelo.update sampleStore gid24
        [("fechaCreacion", jstr "")]).1 with
     | some d => objGet d "fechaCreacion"
     | none => jundef) = jstr "" ∧
    jstr "" ≠ jnum 100 :=
  ⟨rfl, rfl, fun h => JVal.noConfusion h⟩

theorem c1_witness :
    ∃ d', (JuegosModelo.update ([] ++ sampleGame :: []) gid24
        [("titulo", jstr "Nuevo"),
         ("fechaCreacion", jstr "2030-01-01T00:00:00.000Z")]).1 = some d' ∧
      (JuegosModelo.update ([] ++ sampleGame :: []) gid24
        [("titulo", jstr "Nuevo"),
         ("fechaCreacion", jstr "2030-01-01T00:00:00.000Z")]).2
        = [] ++ d' :: [] ∧
      objGet d' "_id" = objGet sampleGame "_id" ∧
      (truthy (objGet [("titulo", jstr "Nuevo"),
         ("fechaCreacion", jstr "2030-01-01T00:00:00.000Z")] "fechaCreacion")
          = true →
        objGet d' "fechaCreacion" = objGet sampleGame "fechaCreacion") ∧
      (objGetOpt [("titulo", jstr "Nuevo"),
         ("fechaCreacion", jstr "2030-01-01T00:00:00.000Z")] "fechaCreacion"
          = none →
        objGet d' "fechaCreacion" = objGet sampleGame "fechaCreacion") ∧
      (∀ k v, k ≠ "_id" → k ≠ "fechaCreacion" →
        objGetOpt [("titulo", jstr "Nuevo"),
          ("fechaCreacion", jstr "2030-01-01T00:00:00.000Z")] k = some v →
        objGet d' k = v) ∧
      (∀ k, objGetOpt [("titulo", jstr "Nuevo"),
          ("fechaCreacion", jstr "2030-01-01T00:00:00.000Z")] k = none →
        objGet d' k = objGet sampleGame k) :=
  c1_update_strips_id_and_truthy_createdAt [] [] sampleGame gid24
    [("titulo", jstr "Nuevo"),
     ("fechaCreacion", jstr "2030-01-01T00:00:00.000Z")]
    (by simp) rfl rfl (by decide)

/-- C2 (counterexample): the claim says the update handler answers 400 for
a non-24-hex id without any persistence call.  In the code the update
handler has no id-format check: for `id = "xyz"` it calls
`JuegosModelo.update` (the id reaches the repository) and, the repository
returning absence for the invalid `ObjectId`, responds 404, not 400. -/
theorem c2_counterexample :
    isHex24 "xyz" = false ∧
    (juegosController.update [] "xyz" (some [("titulo", jstr "X")])).resp.status
      = 404 ∧
    (juegosController.update [] "xyz" (some [("titulo", jstr "X")])).resp.status
      ≠ 400 ∧
    (juegosController.update [] "xyz" (some [("titulo", jstr "X")])).ops
      = [RepoOp.updateOp "xyz" [("titulo", jstr "X")]] :=
  ⟨rfl, rfl, by decide, rfl⟩

/-- C2 (amended): only `getOne` validates the id format in the handler —
a non-24-hex id gets a 400 response echoing the offending value with no
repository call.  `update` and `delete` forward the id to the repository;
for an id rejected by the `ObjectId.isValid` check of the store, the repository reports
absence without touching the collection and the handlers respond 404,
leaving the store unchanged. -/
theorem c2_invalid_id_getOne_400_update_delete_404
    (store : Store) (id : String) (body : JObj) :
    (ctrlIdOk id = false →
      (juegosController.getOne store id).resp.status = 400 ∧
      objGet (juegosController.getOne store id).resp.body "receivedId"
        = jstr id ∧
      (juegosController.getOne store id).ops = [] ∧
      (juegosController.getOne store id).store = store) ∧
    (isValidObjectId id = false →
      (juegosController.update store id (some body)).resp.status = 404 ∧
      (juegosController.update store id (some body)).ops
        = [RepoOp.updateOp id body] ∧
      (juegosController.update store id (some body)).store = store) ∧
    (isValidObjectId id = false →
      (juegosController.delete store id).resp.status = 404 ∧
      (juegosController.delete store id).ops = [RepoOp.deleteOp id] ∧
      (juegosController.delete store id).store = store) := by
  refine ⟨fun h1 => ?_, fun h2 => ?_, fun h3 => ?_⟩
  · simp [juegosController.getOne, h1, objGet]
  · simp [juegosController.update, JuegosModelo.update, h2]
  · simp [juegosController.delete, JuegosModelo.delete, h3]

theorem c2_witness :
    (juegosController.getOne sampleStore "xyz").resp.status = 400 ∧
    (juegosController.update sampleStore "xyz"
      (some [("titulo", jstr "X")])).resp.status = 404 ∧
    (juegosController.delete sampleStore "xyz").resp.status = 404 := by
  have H := c2_invalid_id_getOne_400_update_delete_404 sampleStore "xyz"
    [("titulo", jstr "X")]
  exact ⟨(H.1 rfl).1, (H.2.1 rfl).1, (H.2.2 rfl).1⟩

/-- C4 (counterexample): the claim says genre and platform are non-empty
string sequences after every create and that every later operation keeps
them so.  Both halves fail: (i) creating through the handler with
`plataforma: []` is accepted (201) and stores the empty sequence `[]`;
(ii) updating the sample game with `genero: "Accion"` stores a bare
string, which is not a sequence at all. -/
theorem c4_counterexample :
    (juegosController.create [] (some c4Input) 5 gid24).resp.status = 201 ∧
    (match (juegosController.create [] (some c4Input) 5 gid24).store with
     | [d] => objGet d "plataforma"
     | _ => jundef) = jarr [] ∧
    isNonemptyStrSeq (jarr []) = false ∧
    (match (JuegosModelo.update sampleStore gid24
        [("genero", jstr "Accion")]).1 with
     | some d => objGet d "genero"
     | none => jundef) = jstr "Accion" ∧
    isNonemptyStrSeq (jstr "Accion") = false :=
  ⟨rfl, rfl, rfl, rfl, rfl⟩

/-- C4 (amended): after a create, `genero` and `plataforma` are always
stored as sequences; each is non-empty whenever the corresponding input was
not itself an empty array (a bare or missing value is wrapped as a
one-element sequence holding a — possibly empty — string).  The invariant
is established at creation only; `update` rewrites these fields verbatim
and does not preserve it. -/
theorem c4_create_normalizes_genre_platform (gd : JObj) (now : Int)
    (newId : String) :
    (∃ l, objGet (JuegosModelo.create [] gd now newId).1 "genero" = jarr l ∧
      (objGet gd "genero" ≠ jarr [] → l ≠ [])) ∧
    (∃ l, objGet (JuegosModelo.create [] gd now newId).1 "plataforma"
        = jarr l ∧
      (objGet gd "plataforma" ≠ jarr [] → l ≠ [])) ∧
    (∀ s, objGet gd "genero" = jstr s →
      objGet (JuegosModelo.create [] gd now newId).1 "genero"
        = jarr [jstr s]) ∧
    (∀ s, objGet gd "plataforma" = jstr s →
      objGet (JuegosModelo.create [] gd now newId).1 "plataforma"
        = jarr [jstr s]) := by
  have hg : objGet (JuegosModelo.create [] gd now newId).1 "genero"
      = normalizeArr (objGet gd "genero") := rfl
  have hp : objGet (JuegosModelo.create [] gd now newId).1 "plataforma"
      = normalizeArr (objGet gd "plataforma") := rfl
  refine ⟨?_, ?_, ?_, ?_⟩
  · rw [hg]
    cases hv : objGet gd "genero" with
    | jarr l =>
      exact ⟨l, rfl, fun hne => by
        intro he
        subst he
        exact hne rfl⟩
    | jnull => exact ⟨[jstr ""], rfl, fun _ => by simp⟩
    | jundef => exact ⟨[jstr ""], rfl, fun _ => by simp⟩
    | jbool b => exact ⟨[jsOr (jbool b) (jstr "")], rfl, fun _ => by simp⟩
    | jnum n => exact ⟨[jsOr (jnum n) (jstr "")], rfl, fun _ => by simp⟩
    | jnan => exact ⟨[jstr ""], rfl, fun _ => by simp⟩
    | jstr t => exact ⟨[jsOr (jstr t) (jstr "")], rfl, fun _ => by simp⟩
    | jobj o => exact ⟨[jsOr (jobj o) (jstr "")], rfl, fun _ => by simp⟩
  · rw [hp]
    cases hv : objGet gd "plataforma" with
    | jarr l =>
      exact ⟨l, rfl, fun hne => by
        intro he
        subst he
        exact hne rfl⟩
    | jnull => exact ⟨[jstr ""], rfl, fun _ => by simp⟩
    | jundef => exact ⟨[jstr ""], rfl, fun _ => by simp⟩
    | jbool b => exact ⟨[jsOr (jbool b) (jstr "")], rfl, fun _ => by simp⟩
    | jnum n => exact ⟨[jsOr (jnum n) (jstr "")], rfl, fun _ => by simp⟩
    | jnan => exact ⟨[jstr ""], rfl, fun _ => by simp⟩
    | jstr t => exact ⟨[jsOr (jstr t) (jstr "")], rfl, fun _ => by simp⟩
    | jobj o => exact ⟨[jsOr (jobj o) (jstr "")], rfl, fun _ => by simp⟩
  · intro t hv
    rw [hg, hv]
    unfold normalizeArr jsOr
    by_cases ht : truthy (jstr t)
    · rw [if_pos ht]
    · rw [if_neg ht]
      have : t = "" := by
        by_contra hne
        exact ht (by simp [truthy, hne])
      rw [this]
  · intro t hv
    rw [hp, hv]
    unfold normalizeArr jsOr
    by_cases ht : truthy (jstr t)
    · rw [if_pos ht]
    · rw [if_neg ht]
      have : t = "" := by
        by_contra hne
        exact ht (by simp [truthy, hne])
      rw [this]

theorem c4_witness :
    (∃ l, objGet (JuegosModelo.create [] sampleCreateInput 100 gid24).1
        "genero" = jarr l ∧
      (objGet sampleCreateInput "genero" ≠ jarr [] → l ≠ [])) ∧
    (∃ l, objGet (JuegosModelo.create [] sampleCreateInput 100 gid24).1
        "plataforma" = jarr l ∧
      (objGet sampleCreateInput "plataforma" ≠ jarr [] → l ≠ [])) ∧
    (∀ s, objGet sampleCreateInput "genero" = jstr s →
      objGet (JuegosModelo.create [] sampleCreateInput 100 gid24).1 "genero"
        = jarr [jstr s]) ∧
    (∀ s, objGet sampleCreateInput "plataforma" = jstr s →
      objGet (JuegosModelo.create [] sampleCreateInput 100 gid24).1
        "plataforma" = jarr [jstr s]) :=
  c4_create_normalizes_genre_platform sampleCreateInput 100 gid24

/-- C6 (counterexample): the claim says `create` coerces `releaseYear` to
an integer whenever it is present.  The guard in the code is truthiness, not
presence: for the present value `añoLanzamiento: 0` the stored field is
`null`, not the integer 0. -/
theorem c6_counterexample :
    objGetOpt c6Input "añoLanzamiento" = some (jnum 0) ∧
    objGet (JuegosModelo.create [] c6Input 5 gid24).1 "añoLanzamiento"
      = jnull ∧
    ¬ ∃ n : Int, objGet (JuegosModelo.create [] c6Input 5 gid24).1
        "añoLanzamiento" = jnum n :=
  ⟨rfl, rfl, by rintro ⟨n, h⟩; exact JVal.noConfusion h⟩

/-- C6 (amended): `create` normalizes `genero`/`plataforma` to sequences
(a bare string `v` is stored as `[v]`), coerces `añoLanzamiento` and
`horasJugadas` with `parseInt` when the supplied value is *truthy*
(storing `null` resp. `0` otherwise — so a present falsy value such as 0
is not kept), sets `fechaCreacion` to the current clock tick, and returns
the stored document carrying its assigned `_id`, appending it to the
store. -/
theorem c6_create_normalization (gd : JObj) (now : Int) (newId : String)
    (store : Store) :
    (∃ l, objGet (JuegosModelo.create store gd now newId).1 "genero"
       = jarr l) ∧
    (∃ l, objGet (JuegosModelo.create store gd now newId).1 "plataforma"
       = jarr l) ∧
    (∀ s, objGet gd "genero" = jstr s →
      objGet (JuegosModelo.create store gd now newId).1 "genero"
        = jarr [jstr s]) ∧
    (∀ s, objGet gd "plataforma" = jstr s →
      objGet (JuegosModelo.create store gd now newId).1 "plataforma"
        = jarr [jstr s]) ∧
    (truthy (objGet gd "añoLanzamiento") = true →
      objGet (JuegosModelo.create store gd now newId).1 "añoLanzamiento"
        = jsParseInt (objGet gd "añoLanzamiento")) ∧
    (truthy (objGet gd "añoLanzamiento") = false →
      objGet (JuegosModelo.create store gd now newId).1 "añoLanzamiento"
        = jnull) ∧
    (truthy (objGet gd "horasJugadas") = true →
      objGet (JuegosModelo.create store gd now newId).1 "horasJugadas"
        = jsParseInt (objGet gd "horasJugadas")) ∧
    (truthy (objGet gd "horasJugadas") = false →
      objGet (JuegosModelo.create store gd now newId).1 "horasJugadas"
        = jnum 0) ∧
    objGet (JuegosModelo.create store gd now newId).1 "fechaCreacion"
      = jnum now ∧
    objGet (JuegosModelo.create store gd now newId).1 "_id" = jstr newId ∧
    (JuegosModelo.create store gd now newId).2
      = store ++ [(JuegosModelo.create store gd now newId).1] := by
  have hg : objGet (JuegosModelo.create store gd now newId).1 "genero"
      = normalizeArr (objGet gd "genero") := rfl
  have hp : objGet (JuegosModelo.create store gd now newId).1 "plataforma"
      = normalizeArr (objGet gd "plataforma") := rfl
  have hy : objGet (JuegosModelo.create store gd now newId).1 "añoLanzamiento"
      = coerceYear (objGet gd "añoLanzamiento") := rfl
  have hh : objGet (JuegosModelo.create store gd now newId).1 "horasJugadas"
      = coerceHours (objGet gd "horasJugadas") := rfl
  refine ⟨?_, ?_, ?_, ?_, ?_, ?_, ?_, ?_, rfl, rfl, rfl⟩
  · rw [hg]
    cases objGet gd "genero" with
    | jarr l => exact ⟨l, rfl⟩
    | jnull => exact ⟨[jstr ""], rfl⟩
    | jundef => exact ⟨[jstr ""], rfl⟩
    | jbool b => exact ⟨[jsOr (jbool b) (jstr "")], rfl⟩
    | jnum n => exact ⟨[jsOr (jnum n) (jstr "")], rfl⟩
    | jnan => exact ⟨[jstr ""], rfl⟩
    | jstr t => exact ⟨[jsOr (jstr t) (jstr "")], rfl⟩
    | jobj o => exact ⟨[jsOr (jobj o) (jstr "")], rfl⟩
  · rw [hp]
    cases objGet gd "plataforma" with
    | jarr l => exact ⟨l, rfl⟩
    | jnull => exact ⟨[jstr ""], rfl⟩
    | jundef => exact ⟨[jstr ""], rfl⟩
    | jbool b => exact ⟨[jsOr (jbool b) (jstr "")], rfl⟩
    | jnum n => exact ⟨[jsOr (jnum n) (jstr "")], rfl⟩
    | jnan => exact ⟨[jstr ""], rfl⟩
    | jstr t => exact ⟨[jsOr (jstr t) (jstr "")], rfl⟩
    | jobj o => exact ⟨[jsOr (jobj o) (jstr "")], rfl⟩
  · intro t hv
    rw [hg, hv]
    unfold normalizeArr jsOr
    by_cases ht : truthy (jstr t)
    · rw [if_pos ht]
    · rw [if_neg ht]
      have he : t = "" := by
        by_contra hne
        exact ht (by simp [truthy, hne])
      rw [he]
  · intro t hv
    rw [hp, hv]
    unfold normalizeArr jsOr
    by_cases ht : truthy (jstr t)
    · rw [if_pos ht]
    · rw [if_neg ht]
      have he : t = "" := by
        by_contra hne
        exact ht (by simp [truthy, hne])
      rw [he]
  · intro ht
    rw [hy]
    unfold coerceYear
    rw [if_pos ht]
  · intro hf
    rw [hy]
    unfold coerceYear
    rw [if_neg (by rw [hf]; exact Bool.false_ne_true)]
  · intro ht
    rw [hh]
    unfold coerceHours
    rw [if_pos ht]
  · intro hf
    rw [hh]
    unfold coerceHours
    rw [if_neg (by rw [hf]; exact Bool.false_ne_true)]

theorem c6_witness :
    objGet (JuegosModelo.create [] c6wInput 7 gid24).1 "añoLanzamiento"
      = jsParseInt (objGet c6wInput "añoLanzamiento") ∧
    objGet (JuegosModelo.create [] c6wInput 7 gid24).1 "genero"
      = jarr [jstr "RPG"] ∧
    objGet (JuegosModelo.create [] c6wInput 7 gid24).1 "fechaCreacion"
      = jnum 7 ∧
    objGet (JuegosModelo.create [] c6wInput 7 gid24).1 "_id" = jstr gid24 := by
  have H := c6_create_normalization c6wInput 7 gid24 []
  exact ⟨H.2.2.2.2.1 rfl, H.2.2.1 "RPG" rfl, H.2.2.2.2.2.2.2.2.1,
    H.2.2.2.2.2.2.2.2.2.1⟩

theorem fcDesc_trans (a b c : JObj) : fcDesc a b → fcDesc b c → fcDesc a c := by
  simp only [fcDesc, decide_eq_true_eq]
  omega

theorem fcDesc_total (a b : JObj) : fcDesc a b || fcDesc b a := by
  simp only [fcDesc, Bool.or_eq_true, decide_eq_true_eq]
  omega

/-- C7: listing games with a truthy genre filter `v` returns status 200 and
exactly the games whose `genero` sequence contains `v` (as a multiset), in
`fechaCreacion`-descending order: every earlier listed game has a creation
tick at least that of every later one, so of two matching games created at
ticks `t1 < t2` the `t2` game is listed first.  (The `fechaCreacion` tick of a document, as set by `create` at tick `t`, is `t` — last
conjunct.)  The hypothesis that every stored `genero` is a sequence holds
for every document built by `create`. -/
theorem c7_list_filtered_sorted_desc (store : Store) (v : String)
    (hv : v ≠ "")
    (hseq : ∀ d ∈ store, ∃ l, objGet d "genero" = jarr l) :
    (juegosController.getAll store (some v) none).resp.status = 200 ∧
    (juegosController.getAll store (some v) none).resp.body
      = [("success", jbool true),
         ("data",
          jarr ((JuegosModelo.getAll store ⟨some v, none⟩).map jobj))] ∧
    (juegosController.getAll store (some v) none).store = store ∧
    List.Perm (JuegosModelo.getAll store ⟨some v, none⟩)
      (store.filter (fun d => seqContains (objGet d "genero") v)) ∧
    (JuegosModelo.getAll store ⟨some v, none⟩).Pairwise
      (fun a b => fcKey b ≤ fcKey a) ∧
    (∀ gd t nid st, fcKey (JuegosModelo.create st gd t nid).1 = t) := by
  have hne : (v != "") = true := by simpa using hv
  refine ⟨by simp [juegosController.getAll, hne],
    by simp [juegosController.getAll, hne],
    by simp [juegosController.getAll, hne], ?_, ?_, fun _ _ _ _ => rfl⟩
  · have hfil : store.filter (fun d => matchesFilter ⟨some v, none⟩ d)
        = store.filter (fun d => seqContains (objGet d "genero") v) := by
      apply List.filter_congr
      intro d hd
      rcases hseq d hd with ⟨l, hl⟩
      simp [matchesFilter, mongoInMatch, seqContains, hl]
    have hperm := List.mergeSort_perm
      (store.filter (fun d => matchesFilter ⟨some v, none⟩ d)) fcDesc
    unfold JuegosModelo.getAll
    exact hperm.trans (by rw [hfil])
  · have hs := @List.sorted_mergeSort JObj fcDesc fcDesc_trans fcDesc_total
      (store.filter (fun d => matchesFilter ⟨some v, none⟩ d))
    exact hs.imp (fun h => by simpa [fcDesc] using h)

theorem c7_witness :
    (juegosController.getAll c7Store (some "RPG") none).resp.status = 200 ∧
    List.Perm (JuegosModelo.getAll c7Store ⟨some "RPG", none⟩)
      (c7Store.filter (fun d => seqContains (objGet d "genero") "RPG")) ∧
    (JuegosModelo.getAll c7Store ⟨some "RPG", none⟩).Pairwise
      (fun a b => fcKey b ≤ fcKey a) := by
  have hseq : ∀ d ∈ c7Store, ∃ l, objGet d "genero" = jarr l := by
    intro d hd
    rw [show c7Store = [(JuegosModelo.create [] sampleCreateInput 1 gid24).1,
      (JuegosModelo.create (JuegosModelo.create [] sampleCreateInput 1 gid24).2
        sampleCreateInput 2 gidB).1] from rfl] at hd
    simp only [List.mem_cons, List.not_mem_nil, or_false] at hd
    rcases hd with h | h
    · subst h
      exact ⟨[jstr "RPG"], rfl⟩
    · subst h
      exact ⟨[jstr "RPG"], rfl⟩
  have H := c7_list_filtered_sorted_desc c7Store "RPG" (by decide) hseq
  exact ⟨H.1, H.2.2.2.1, H.2.2.2.2.1⟩

/-- C8: review creation requires a (truthy) `nombreUsuario` and
`textoReseña` — a missing or empty value short-circuits with 400 — and a
supplied `calificaciones` must convert to a number in [0,5]: a non-numeric
or out-of-range rating is rejected with 400.  In each rejection the store
is untouched and no repository call is made. -/
theorem c8_review_validation (store : Store) (id : String) (body : JObj)
    (now : Int) (revId : String) :
    (truthy (objGet body "nombreUsuario") = false →
      (juegosController.addResena store id (some body) now revId).resp.status
        = 400 ∧
      (juegosController.addResena store id (some body) now revId).ops = [] ∧
      (juegosController.addResena store id (some body) now revId).store
        = store) ∧
    (truthy (objGet body "nombreUsuario") = true →
     truthy (objGet body "textoReseña") = false →
      (juegosController.addResena store id (some body) now revId).resp.status
        = 400 ∧
      (juegosController.addResena store id (some body) now revId).ops = [] ∧
      (juegosController.addResena store id (some body) now revId).store
        = store) ∧
    (truthy (objGet body "nombreUsuario") = true →
     truthy (objGet body "textoReseña") = true →
     isUndef (objGet body "calificaciones") = false →
     juegosController.badRating (objGet body "calificaciones") = true →
      (juegosController.addResena store id (some body) now revId).resp.status
        = 400 ∧
      objGet (juegosController.addResena store id (some body) now
          revId).resp.body "message"
        = jstr "La calificación debe ser un número entre 0 y 5" ∧
      (juegosController.addResena store id (some body) now revId).ops = [] ∧
      (juegosController.addResena store id (some body) now revId).store
        = store) := by
  refine ⟨fun h1 => ?_, fun h1 h2 => ?_, fun h1 h2 h3 h4 => ?_⟩
  · simp [juegosController.addResena, h1]
  · simp [juegosController.addResena, h1, h2]
  · simp [juegosController.addResena, h1, h2, h3, h4, objGet]

theorem c8_witness :
    juegosController.badRating (jnum 7) = true ∧
    (juegosController.addResena sampleStore gid24 (some c8Body) 9
        gidC).resp.status = 400 ∧
    (juegosController.addResena sampleStore gid24 (some c8Body) 9 gidC).ops
      = [] ∧
    (juegosController.addResena sampleStore gid24 (some c8Body) 9 gidC).store
      = sampleStore := by
  have H := (c8_review_validation sampleStore gid24 c8Body 9
    gidC).2.2 rfl rfl rfl rfl
  exact ⟨rfl, H.1, H.2.2.1, H.2.2.2⟩

/-- C9 (counterexample): the claim says every create-validation failure
echoes the received input.  The release-year failure does not: creating
with a valid title and genre but `añoLanzamiento: "abc"` yields 400 citing
field `añoLanzamiento` with no `receivedData` in the response body. -/
theorem c9_counterexample :
    (juegosController.create [] (some c9Body) 5 gid24).resp.status = 400 ∧
    objGet (juegosController.create [] (some c9Body) 5 gid24).resp.body
      "field" = jstr "añoLanzamiento" ∧
    objGet (juegosController.create [] (some c9Body) 5 gid24).resp.body
      "receivedData" = jundef :=
  ⟨rfl, rfl, rfl⟩

/-- C9 (amended): the create handler validates in the order title
(truthiness) → genre (truthy and, when an array, non-empty) → release year
(numeric parseability when truthy); each failure short-circuits with 400
naming the offending field, with no repository call and the store
untouched.  The title and genre failures echo the received input
(`receivedData`); the release-year failure does not echo it.  In
particular a missing title yields 400 citing `titulo` regardless of the
other fields. -/
theorem c9_create_validation_order (store : Store) (body : JObj)
    (now : Int) (newId : String) :
    (truthy (objGet body "titulo") = false →
      (juegosController.create store (some body) now newId).resp.status
        = 400 ∧
      objGet (juegosController.create store (some body) now newId).resp.body
        "field" = jstr "titulo" ∧
      objGet (juegosController.create store (some body) now newId).resp.body
        "receivedData" = jobj body ∧
      (juegosController.create store (some body) now newId).ops = [] ∧
      (juegosController.create store (some body) now newId).store = store) ∧
    (truthy (objGet body "titulo") = true →
     (!truthy (objGet body "genero") || isEmptyArr (objGet body "genero"))
        = true →
      (juegosController.create store (some body) now newId).resp.status
        = 400 ∧
      objGet (juegosController.create store (some body) now newId).resp.body
        "field" = jstr "genero" ∧
      objGet (juegosController.create store (some body) now newId).resp.body
        "receivedData" = jobj body ∧
      (juegosController.create store (some body) now newId).ops = [] ∧
      (juegosController.create store (some body) now newId).store = store) ∧
    (truthy (objGet body "titulo") = true →
     (!truthy (objGet body "genero") || isEmptyArr (objGet body "genero"))
        = false →
     truthy (objGet body "añoLanzamiento") = true →
     (jsNumber (objGet body "añoLanzamiento")).isNone = true →
      (juegosController.create store (some body) now newId).resp.status
        = 400 ∧
      objGet (juegosController.create store (some body) now newId).resp.body
        "field" = jstr "añoLanzamiento" ∧
      objGet (juegosController.create store (some body) now newId).resp.body
        "receivedData" = jundef ∧
      (juegosController.create store (some body) now newId).ops = [] ∧
      (juegosController.create store (some body) now newId).store
        = store) := by
  refine ⟨fun h1 => ?_, fun h1 h2 => ?_, fun h1 h2 h3 h4 => ?_⟩
  · simp [juegosController.create, h1, objGet]
  · simp [juegosController.create, h1, h2, objGet]
  · simp [juegosController.create, h1, h2, h3, h4, objGet]

theorem c9_witness :
    (juegosController.create sampleStore (some [("genero", jstr "RPG")]) 5
        gidB).resp.status = 400 ∧
    objGet (juegosController.create sampleStore (some [("genero", jstr "RPG")])
        5 gidB).resp.body "field" = jstr "titulo" ∧
    objGet (juegosController.create sampleStore (some [("genero", jstr "RPG")])
        5 gidB).resp.body "receivedData" = jobj [("genero", jstr "RPG")] ∧
    (juegosController.create sampleStore (some [("genero", jstr "RPG")]) 5
        gidB).ops = [] := by
  have H := (c9_create_validation_order sampleStore [("genero", jstr "RPG")]
    5 gidB).1 rfl
  exact ⟨H.1, H.2.1, H.2.2.1, H.2.2.2.1⟩

/-- C10: adding a review through the handler with a syntactically valid
`gameId` that matches no stored game still succeeds: the repository builds
the review, `findOneAndUpdate` matches nothing (the store is unchanged —
the review is appended to no document), the review itself is returned, and
the handler responds 201 carrying that review rather than reporting the
absent target. -/
theorem c10_addReview_absent_game_201 (store : Store) (id : String)
    (body : JObj) (now : Int) (revId : String)
    (hvalid : isValidObjectId id = true)
    (hnomatch : ∀ d ∈ store, isStr (objGet d "_id") id = false)
    (hn : truthy (objGet body "nombreUsuario") = true)
    (ht : truthy (objGet body "textoReseña") = true)
    (hr : isUndef (objGet body "calificaciones") = true ∨
      juegosController.badRating (objGet body "calificaciones") = false) :
    JuegosModelo.addResena store id body now revId
      = .ok (JuegosModelo.newResenaDoc id body now revId, store) ∧
    (juegosController.addResena store id (some body) now revId).resp.status
      = 201 ∧
    objGet (juegosController.addResena store id (some body) now
        revId).resp.body "data"
      = jobj (JuegosModelo.newResenaDoc id body now revId) ∧
    (juegosController.addResena store id (some body) now revId).store
      = store ∧
    (juegosController.addResena store id (some body) now revId).ops
      = [RepoOp.addResenaOp id body] := by
  have hmodel : JuegosModelo.addResena store id body now revId
      = .ok (JuegosModelo.newResenaDoc id body now revId, store) := by
    unfold JuegosModelo.addResena
    rw [hvalid]
    simp only [if_true]
    rw [pushFirst_nomatch store id _ hnomatch]
  have hcond : (!(isUndef (objGet body "calificaciones"))
      && juegosController.badRating (objGet body "calificaciones"))
        = false := by
    rcases hr with h | h
    · simp [h]
    · simp [h]
  refine ⟨hmodel, ?_, ?_, ?_, ?_⟩ <;>
    simp [juegosController.addResena, hn, ht, hcond, hmodel, objGet]

theorem c10_witness :
    JuegosModelo.addResena sampleStore gidB c10Body 9 gidC
      = .ok (JuegosModelo.newResenaDoc gidB c10Body 9 gidC, sampleStore) ∧
    (juegosController.addResena sampleStore gidB (some c10Body) 9
        gidC).resp.status = 201 ∧
    (juegosController.addResena sampleStore gidB (some c10Body) 9
        gidC).store = sampleStore := by
  have hnomatch : ∀ d ∈ sampleStore, isStr (objGet d "_id") gidB = false := by
    intro d hd
    rw [show sampleStore = [sampleGame] from rfl] at hd
    simp only [List.mem_cons, List.not_mem_nil, or_false] at hd
    subst hd
    rfl
  have H := c10_addReview_absent_game_201 sampleStore gidB c10Body 9 gidC
    rfl hnomatch rfl rfl (Or.inl rfl)
  exact ⟨H.1, H.2.1, H.2.2.2.1⟩
